import Mathlib

/-!
Shallow embedding of the RBAC-gated user-management and checkout pipeline of
the `my-golang-sample` ecommerce backend.

Conventions used throughout:
* Go `int64` values (ids, quantities, stock) are modelled as `Int`.
* Go `float64` money amounts are modelled as `Rat`; the arithmetic performed
  by the code (`total += price * float64(qty)`, `stock - qty`) is mirrored
  term by term.
* Go errors are modelled as inductive error types; fallible operations return
  `Except`.
* Database state is passed explicitly.  An operation that in Go runs inside a
  transaction and rolls back on failure returns the unchanged input state on
  its error paths.
* Calls to collaborators whose absence a claim asserts (role lookup, password
  hashing, repository create/update, cart reads) are recorded in an explicit
  effect trace returned next to the result.
-/

set_option autoImplicit false

deriving instance DecidableEq for Except

namespace Shop

/-! ### Role codes and the assignment policy
Source: `app/internal/domain/user` (`RoleCode`, `IsValid`, `CanAssignRole`). -/

/-- Go: `type RoleCode string`. -/
abbrev RoleCode := String

/-- Go constant `RoleCodeSuperAdmin`. -/
def RoleCodeSuperAdmin : RoleCode := "SUPER_ADMIN"

/-- Go constant `RoleCodeAdmin`. -/
def RoleCodeAdmin : RoleCode := "ADMIN"

/-- Go constant `RoleCodeCustomer`. -/
def RoleCodeCustomer : RoleCode := "CUSTOMER"

/-- One character of the role-code character class `[A-Z0-9_]`. -/
def roleCodeChar (c : Char) : Bool :=
  ('A' ≤ c && c ≤ 'Z') || ('0' ≤ c && c ≤ '9') || c == '_'

/-- Go: `func (c RoleCode) IsValid() bool`, the anchored regular expression
`[A-Z0-9_]` repeated between 3 and 64 times. -/
def RoleCode.IsValid (c : RoleCode) : Bool :=
  3 ≤ c.length && c.length ≤ 64 && c.toList.all roleCodeChar

/-- Go: `func CanAssignRole(executorRole RoleCode, targetRole RoleCode) bool`.
Only SUPER_ADMIN may assign the ADMIN role; every other target is allowed. -/
def CanAssignRole (executorRole targetRole : RoleCode) : Bool :=
  if targetRole == RoleCodeAdmin then executorRole == RoleCodeSuperAdmin
  else true

/-! ### User directory (usecase `user.Service`)
Source: the `usecase/user` service (`CreateUser`, `UpdateUser`) together with
the MySQL user repository behaviour it relies on (email uniqueness on
create/update, role-id lookup by code, user lookup by id). -/

/-- Errors of the user-management paths. -/
inductive UserErr where
  | invalidCredential
  | invalidRoleCode
  | cannotAssignRole
  | userNotFound
  | emailAlreadyUsed
  | roleNotFound
  deriving DecidableEq

/-- Go `domain/user.User`. -/
structure User where
  id : Int
  name : String
  email : String
  passwordHash : String
  userRoleID : Int
  roleCode : RoleCode
  deriving DecidableEq

/-- Collaborator calls made by the user service; the claims assert which of
these happen on rejected paths. -/
inductive UserEffect where
  | roleLookup (code : RoleCode)
  | passwordHash (pw : String)
  | repoCreate
  | repoUpdate
  deriving DecidableEq

/-- State owned by the user repository: the user rows, the role directory
(code to id), and the auto-increment counter. -/
structure UserStore where
  users : List User
  roles : List (RoleCode × Int)
  nextID : Int
  deriving DecidableEq

/-- The password-hashing collaborator (`PasswordHasher.Hash`), modelled as a
pure total function: none of the claims depends on hashing failing. -/
def hashPassword (password : String) : String :=
  "hashed:" ++ password

/-- Repository `GetRoleIDByCode`: resolve a role code to its id; the MySQL
implementation wraps a missing row into `ErrRoleNotFound`. -/
def GetRoleIDByCode (st : UserStore) (code : RoleCode) : Except UserErr Int :=
  match st.roles.find? (fun r => r.fst == code) with
  | some r => .ok r.snd
  | none => .error .roleNotFound

/-- Repository `GetByID` for users (`ErrUserNotFound` when absent). -/
def GetUserByID (st : UserStore) (id : Int) : Except UserErr User :=
  match st.users.find? (fun u => u.id == id) with
  | some u => .ok u
  | none => .error .userNotFound

/-- Repository `Create`: enforce email uniqueness, assign the next id,
append the row. -/
def repoCreateUser (st : UserStore) (u : User) : Except UserErr (User × UserStore) :=
  if st.users.any (fun v => v.email == u.email) then .error .emailAlreadyUsed
  else
    let created : User := { u with id := st.nextID }
    .ok (created, { st with users := st.users ++ [created], nextID := st.nextID + 1 })

/-- The columns `UPDATE users SET name, email, password_hash, user_role_id`
writes; a row counts as changed exactly when one of them differs (the role
code is not a column of `users` — it is joined in on reads). -/
def userRowChanged (v u : User) : Bool :=
  !(v.name == u.name && v.email == u.email &&
    v.passwordHash == u.passwordHash && v.userRoleID == u.userRoleID)

/-- Repository `Update`: enforce email uniqueness against the other rows,
then run the UPDATE and inspect `RowsAffected`.  The driver counts *changed*
rows (the DSN in `main.go` sets no `clientFoundRows`), so zero affected rows
— no row with that id, or a row all of whose written columns already hold
the new values — yields `ErrUserNotFound`; otherwise the matching row is
overwritten and the in-memory user is returned. -/
def repoUpdateUser (st : UserStore) (u : User) : Except UserErr (User × UserStore) :=
  if st.users.any (fun v => v.email == u.email && !(v.id == u.id)) then
    .error .emailAlreadyUsed
  else if (st.users.filter (fun v => v.id == u.id && userRowChanged v u)).length == 0 then
    .error .userNotFound
  else
    .ok (u, { st with users := st.users.map (fun v => if v.id == u.id then u else v) })

/-- Go `usecase/user.CreateUserInput`. -/
structure CreateUserInput where
  executorRole : RoleCode
  name : String
  email : String
  password : String
  roleCode : RoleCode

/-- Go `usecase/user.UpdateUserInput` (pointer fields become `Option`). -/
structure UpdateUserInput where
  executorRole : RoleCode
  id : Int
  name : Option String
  email : Option String
  password : Option String
  roleCode : Option RoleCode

/-- Go `(*user.Service).CreateUser`: empty-password guard, role-code format
guard, the explicit ADMIN-cannot-create-ADMIN rule, the general policy,
then role lookup, password hash and repository create, in that order. -/
def CreateUser (st : UserStore) (inp : CreateUserInput) :
    Except UserErr User × UserStore × List UserEffect :=
  if inp.password == "" then (.error .invalidCredential, st, [])
  else if !(RoleCode.IsValid inp.roleCode) then (.error .invalidRoleCode, st, [])
  else if inp.executorRole == RoleCodeAdmin && inp.roleCode == RoleCodeAdmin then
    (.error .cannotAssignRole, st, [])
  else if !(CanAssignRole inp.executorRole inp.roleCode) then
    (.error .cannotAssignRole, st, [])
  else
    match GetRoleIDByCode st inp.roleCode with
    | .error e => (.error e, st, [.roleLookup inp.roleCode])
    | .ok roleID =>
      let u : User :=
        { id := 0, name := inp.name, email := inp.email,
          passwordHash := hashPassword inp.password,
          userRoleID := roleID, roleCode := inp.roleCode }
      match repoCreateUser st u with
      | .error e => (.error e, st, [.roleLookup inp.roleCode, .passwordHash inp.password])
      | .ok (created, st2) =>
        (.ok created, st2, [.roleLookup inp.roleCode, .passwordHash inp.password, .repoCreate])

/-- Tail of `UpdateUser` after the optional role branch: apply the optional
name/email/password updates to the loaded row and persist it. -/
def UpdateUserRest (st : UserStore) (inp : UpdateUserInput) (u : User)
    (eff : List UserEffect) : Except UserErr User × UserStore × List UserEffect :=
  let u1 := match inp.name with
    | some n => { u with name := n }
    | none => u
  let u2 := match inp.email with
    | some e => { u1 with email := e }
    | none => u1
  let step := match inp.password with
    | some pw => ({ u2 with passwordHash := hashPassword pw }, eff ++ [UserEffect.passwordHash pw])
    | none => (u2, eff)
  match repoUpdateUser st step.1 with
  | .error e => (.error e, st, step.2)
  | .ok (updated, st2) => (.ok updated, st2, step.2 ++ [.repoUpdate])

/-- Go `(*user.Service).UpdateUser`: load the user, then — only when a new
role is supplied — the role-code format guard, the explicit
ADMIN-cannot-promote-to-ADMIN rule, the general policy and the role lookup;
finally the optional field updates and the repository update. -/
def UpdateUser (st : UserStore) (inp : UpdateUserInput) :
    Except UserErr User × UserStore × List UserEffect :=
  match GetUserByID st inp.id with
  | .error e => (.error e, st, [])
  | .ok u0 =>
    match inp.roleCode with
    | some rc =>
      if !(RoleCode.IsValid rc) then (.error .invalidRoleCode, st, [])
      else if inp.executorRole == RoleCodeAdmin && rc == RoleCodeAdmin then
        (.error .cannotAssignRole, st, [])
      else if !(CanAssignRole inp.executorRole rc) then
        (.error .cannotAssignRole, st, [])
      else
        match GetRoleIDByCode st rc with
        | .error e => (.error e, st, [.roleLookup rc])
        | .ok roleID =>
          UpdateUserRest st inp { u0 with userRoleID := roleID, roleCode := rc } [.roleLookup rc]
    | none => UpdateUserRest st inp u0 []

/-! ### Catalog, cart, orders: shared store
Source: `domain/product`, `domain/cart`, `domain/order` and the MySQL
repositories (`CartRepository`, `OrderRepository`). -/

/-- Go `domain/product.Product`. -/
structure Product where
  id : Int
  name : String
  description : String
  price : Rat
  stock : Int
  categoryID : Int
  isActive : Bool
  deriving DecidableEq

/-- Go `domain/cart.Item` (a raw cart line). -/
structure Item where
  productID : Int
  quantity : Int
  deriving DecidableEq

/-- Go `domain/order.OrderItem` (a snapshot line of an order). -/
structure OrderItem where
  id : Int
  orderID : Int
  productID : Int
  name : String
  price : Rat
  quantity : Int
  deriving DecidableEq

/-- Go `type Status string` of `domain/order`. -/
abbrev Status := String

/-- Go constant `StatusPending`. -/
def StatusPending : Status := "PENDING"

/-- Go constant `StatusPaid`. -/
def StatusPaid : Status := "PAID"

/-- Go constant `StatusShipped`. -/
def StatusShipped : Status := "SHIPPED"

/-- Go constant `StatusCanceled`. -/
def StatusCanceled : Status := "CANCELED"

/-- Go: `func (s Status) IsValid() bool` (a four-way switch). -/
def Status.IsValid (s : Status) : Bool :=
  s == StatusPending || s == StatusPaid || s == StatusShipped || s == StatusCanceled

/-- Go `type PaymentMethod string` of `domain/order`. -/
abbrev PaymentMethod := String

/-- Go constant `PaymentCOD`. -/
def PaymentCOD : PaymentMethod := "COD"

/-- Go constant `PaymentTamara`. -/
def PaymentTamara : PaymentMethod := "TAMARA"

/-- Go: `func (p PaymentMethod) IsValid() bool` (a two-way switch). -/
def PaymentMethod.IsValid (p : PaymentMethod) : Bool :=
  p == PaymentCOD || p == PaymentTamara

/-- Errors of the cart/checkout/order paths.  `storage` stands for an opaque
lower-layer database error propagated unwrapped (here: a failing cart
clear). -/
inductive OrderErr where
  | orderNotFound
  | invalidStatus
  | invalidPayment
  | emptyOrderItems
  | checkoutValidation
  | storage
  deriving DecidableEq

/-- A row of the `orders` table (`order_items` rows are kept separately, as
in the schema; `domain/order.Order` is the joined view). -/
structure OrderRow where
  id : Int
  userID : Int
  status : Status
  paymentMethod : PaymentMethod
  totalAmount : Rat
  createdAt : Int
  deriving DecidableEq

/-- Go `domain/order.Order`, the joined view returned to callers. -/
structure Order where
  id : Int
  userID : Int
  status : Status
  paymentMethod : PaymentMethod
  totalAmount : Rat
  items : List OrderItem
  createdAt : Int
  deriving DecidableEq

/-- A row of the `cart_items` table. -/
structure CartRow where
  userID : Int
  productID : Int
  quantity : Int
  deriving DecidableEq

/-- The relational store shared by the cart, product and order repositories.
`clearErr` models an opaque storage failure hit by `Clear` (the situation the
spec's cart-clear consistency gap is about); `now` stands for the database
clock filling `created_at`. -/
structure ShopState where
  products : List Product
  cartRows : List CartRow
  orderRows : List OrderRow
  orderItemRows : List OrderItem
  nextOrderID : Int
  nextOrderItemID : Int
  now : Int
  clearErr : Bool
  deriving DecidableEq

/-- The checkout re-read `SELECT name, price, stock FROM products WHERE id = ?
FOR UPDATE` (row present or `sql.ErrNoRows`). -/
def findProduct (ps : List Product) (id : Int) : Option Product :=
  ps.find? (fun p => p.id == id)

/-! ### Cart repository
Source: MySQL `CartRepository` (`AddOrUpdateItem`, `ListItems`, `Clear`). -/

/-- Go `AddOrUpdateItem`: `INSERT ... ON DUPLICATE KEY UPDATE quantity =
quantity + VALUES(quantity)` on `cart_items`, keyed by (user, product). -/
def AddOrUpdateItem (st : ShopState) (userID productID quantity : Int) : ShopState :=
  if st.cartRows.any (fun r => r.userID == userID && r.productID == productID) then
    { st with cartRows := st.cartRows.map (fun r =>
        if r.userID == userID && r.productID == productID then
          { r with quantity := r.quantity + quantity }
        else r) }
  else
    { st with cartRows := st.cartRows ++ [{ userID := userID, productID := productID, quantity := quantity }] }

/-- Go `ListItems`: the user's raw cart lines. -/
def ListItems (st : ShopState) (userID : Int) : List Item :=
  (st.cartRows.filter (fun r => r.userID == userID)).map
    (fun r => { productID := r.productID, quantity := r.quantity })

/-- Go `Clear`: `DELETE FROM cart_items WHERE user_id = ?`; fails with the
opaque storage error when the store is in the failing configuration. -/
def ClearCart (st : ShopState) (userID : Int) : Except OrderErr ShopState :=
  if st.clearErr then .error .storage
  else .ok { st with cartRows := st.cartRows.filter (fun r => !(r.userID == userID)) }

/-! ### Order repository
Source: MySQL `OrderRepository` (`CreateFromCart`, `GetByID`, `UpdateStatus`,
`listOrderItems`). -/

/-- Go `listOrderItems`: `SELECT ... FROM order_items WHERE order_id = ?`. -/
def listOrderItems (st : ShopState) (orderID : Int) : List OrderItem :=
  st.orderItemRows.filter (fun it => it.orderID == orderID)

/-- Go `GetByID`: read the order row (`ErrOrderNotFound` when absent) and
join its items in. -/
def GetOrderByID (st : ShopState) (id : Int) : Except OrderErr Order :=
  match st.orderRows.find? (fun o => o.id == id) with
  | none => .error .orderNotFound
  | some row =>
    .ok { id := row.id, userID := row.userID, status := row.status,
          paymentMethod := row.paymentMethod, totalAmount := row.totalAmount,
          items := listOrderItems st row.id, createdAt := row.createdAt }

/-- Validation/snapshot loop of `CreateFromCart`: for each cart line re-read
name, price and stock of the product; fail with `ErrCheckoutValidation` when
the row is missing or `stock < quantity`; otherwise accumulate
`total += price * float64(quantity)` and the snapshot `OrderItem` (ids still
zero, as in the Go value literal). -/
def scanCartItems (ps : List Product) : List Item → Except OrderErr (Rat × List OrderItem)
  | [] => .ok (0, [])
  | item :: rest =>
    match findProduct ps item.productID with
    | none => .error .checkoutValidation
    | some p =>
      if p.stock < item.quantity then .error .checkoutValidation
      else
        match scanCartItems ps rest with
        | .error e => .error e
        | .ok (total, snaps) =>
          .ok (p.price * (item.quantity : Rat) + total,
               { id := 0, orderID := 0, productID := item.productID, name := p.name,
                 price := p.price, quantity := item.quantity } :: snaps)

/-- Insert loop of `CreateFromCart`: for each snapshot insert an
`order_items` row (fresh id, the new order's id) and run
`UPDATE products SET stock = stock - ? WHERE id = ?`. -/
def insertOrderItems (st : ShopState) (orderID : Int) : List OrderItem → ShopState
  | [] => st
  | s :: rest =>
    let row : OrderItem := { s with id := st.nextOrderItemID, orderID := orderID }
    let st2 : ShopState :=
      { st with
        orderItemRows := st.orderItemRows ++ [row],
        nextOrderItemID := st.nextOrderItemID + 1,
        products := st.products.map (fun p =>
          if p.id == s.productID then { p with stock := p.stock - s.quantity } else p) }
    insertOrderItems st2 orderID rest

/-- Go `(*OrderRepository).CreateFromCart`: inside one transaction validate
and snapshot every line, insert the `orders` row (status PENDING), insert the
item rows and decrement stock, commit, then re-read the full order.  Any
failure rolls the transaction back, so error paths return the input state. -/
def CreateFromCart (st : ShopState) (userID : Int) (items : List Item)
    (payment : PaymentMethod) : Except OrderErr Order × ShopState :=
  match scanCartItems st.products items with
  | .error e => (.error e, st)
  | .ok (total, snaps) =>
    let orderID := st.nextOrderID
    let row : OrderRow :=
      { id := orderID, userID := userID, status := StatusPending,
        paymentMethod := payment, totalAmount := total, createdAt := st.now }
    let st1 : ShopState :=
      { st with orderRows := st.orderRows ++ [row], nextOrderID := orderID + 1 }
    let st2 := insertOrderItems st1 orderID snaps
    match GetOrderByID st2 orderID with
    | .error e => (.error e, st2)
    | .ok o => (.ok o, st2)

/-- Go `(*OrderRepository).UpdateStatus`: `UPDATE orders SET status = ? WHERE
id = ?`, then `RowsAffected`.  The driver counts *changed* rows (the DSN in
`main.go` sets no `clientFoundRows`), so zero affected rows — no order with
that id, or an order already carrying that status — yields
`ErrOrderNotFound` with the table unchanged; otherwise the order is
re-read. -/
def repoUpdateStatus (st : ShopState) (id : Int) (status : Status) :
    Except OrderErr Order × ShopState :=
  if (st.orderRows.filter (fun o => o.id == id && !(o.status == status))).length == 0 then
    (.error .orderNotFound, st)
  else
    let st2 : ShopState :=
      { st with orderRows := st.orderRows.map (fun o =>
          if o.id == id then { o with status := status } else o) }
    match GetOrderByID st2 id with
    | .error e => (.error e, st2)
    | .ok o => (.ok o, st2)

/-! ### Cart and order usecase services
Source: `usecase/cart.Service` (`AddToCart`, `Checkout`; the separate
`usecase/checkout.Service.Checkout` is line-for-line the same logic) and
`usecase/order.Service` (`UpdateStatus`). -/

/-- Errors of `AddToCart` as shipped: the only guard is the generic
"quantity must be positive" error. -/
inductive CartErr where
  | quantityNotPositive
  deriving DecidableEq

/-- Go `(*cart.Service).AddToCart` as shipped: reject `quantity <= 0`, then
delegate straight to the repository upsert.  No product lookup, no
active-flag check and no stock check happens here. -/
def AddToCart (st : ShopState) (userID productID quantity : Int) :
    Except CartErr Unit × ShopState :=
  if quantity ≤ 0 then (.error .quantityNotPositive, st)
  else (.ok (), AddOrUpdateItem st userID productID quantity)

/-- Collaborator calls made by `Checkout`; the claims assert which of these
happen before a given failure. -/
inductive CheckoutEffect where
  | cartList
  | createOrder
  | cartClear
  deriving DecidableEq

/-- Go `(*cart.Service).Checkout` (and identically
`(*checkout.Service).Checkout`): payment-method guard, cart read,
empty-cart guard, transactional order creation, cart clear.  A cart-clear
failure is returned to the caller after the order has been committed. -/
def Checkout (st : ShopState) (userID : Int) (method : PaymentMethod) :
    Except OrderErr Order × ShopState × List CheckoutEffect :=
  if !(PaymentMethod.IsValid method) then (.error .invalidPayment, st, [])
  else
    let items := ListItems st userID
    if items.length == 0 then (.error .emptyOrderItems, st, [.cartList])
    else
      match CreateFromCart st userID items method with
      | (.error e, st1) => (.error e, st1, [.cartList, .createOrder])
      | (.ok order, st1) =>
        match ClearCart st1 userID with
        | .error e => (.error e, st1, [.cartList, .createOrder, .cartClear])
        | .ok st2 => (.ok order, st2, [.cartList, .createOrder, .cartClear])

/-- Go `(*order.Service).UpdateStatus`: status-validity guard, then the
repository update. -/
def UpdateStatus (st : ShopState) (id : Int) (status : Status) :
    Except OrderErr Order × ShopState :=
  if !(Status.IsValid status) then (.error .invalidStatus, st)
  else repoUpdateStatus st id status

/-! ### Spec-side definitions
These follow the wording of the specification, for comparison with the
source-derived functions above. -/

/-- Spec wording: the freshly-read unit price of a cart line's product
(zero when the product does not resolve; on the success paths compared
against, every product resolves). -/
def freshPrice (ps : List Product) (productID : Int) : Rat :=
  match findProduct ps productID with
  | some p => p.price
  | none => 0

/-- Spec wording: "total_amount equals the sum over all cart lines of the
freshly-read unit price times quantity". -/
def specCartTotal (ps : List Product) (items : List Item) : Rat :=
  (items.map (fun i => freshPrice ps i.productID * (i.quantity : Rat))).sum

/-- Spec wording: an order line is "a point-in-time copy of the product name
and unit price" for its cart line, with live stock at least the requested
quantity. -/
def SnapOf (ps : List Product) (i : Item) (s : OrderItem) : Prop :=
  ∃ p, findProduct ps i.productID = some p ∧ i.quantity ≤ p.stock ∧
    s.productID = i.productID ∧ s.name = p.name ∧ s.price = p.price ∧
    s.quantity = i.quantity

/-- Spec wording: checkout "decrement[s] each product's stock by the
purchased quantity", line by line. -/
def checkoutDecrement (ps : List Product) : List Item → List Product
  | [] => ps
  | i :: rest =>
    checkoutDecrement
      (ps.map (fun p =>
        if p.id == i.productID then { p with stock := p.stock - i.quantity } else p))
      rest

/-- Store sanity invariant guaranteed by the auto-increment database schema:
order ids stay below the next id and every item row belongs to an order row. -/
def StateWF (st : ShopState) : Bool :=
  st.orderRows.all (fun o => o.id < st.nextOrderID) &&
  st.orderItemRows.all (fun it => st.orderRows.any (fun o => o.id == it.orderID))

/-! ### Helper lemmas about the checkout pipeline -/

/-- The `order_items` rows the insert loop writes: consecutive fresh ids and
the owning order's id stamped onto the snapshots. -/
def stampRows (startID orderID : Int) : List OrderItem → List OrderItem
  | [] => []
  | s :: rest => { s with id := startID, orderID := orderID } :: stampRows (startID + 1) orderID rest

/-- The product-table effect of the insert loop, snapshot by snapshot. -/
def decBySnaps (ps : List Product) : List OrderItem → List Product
  | [] => ps
  | s :: rest =>
    decBySnaps
      (ps.map (fun p =>
        if p.id == s.productID then { p with stock := p.stock - s.quantity } else p))
      rest

/-- The order committed by a successful `CreateFromCart` run. -/
def checkoutOrder (st : ShopState) (userID : Int) (payment : PaymentMethod)
    (total : Rat) (snaps : List OrderItem) : Order :=
  { id := st.nextOrderID, userID := userID, status := StatusPending,
    paymentMethod := payment, totalAmount := total,
    items := stampRows st.nextOrderItemID st.nextOrderID snaps,
    createdAt := st.now }

/-- The store after a successful `CreateFromCart` commit. -/
def commitState (st : ShopState) (userID : Int) (payment : PaymentMethod)
    (total : Rat) (snaps : List OrderItem) : ShopState :=
  { st with
    products := decBySnaps st.products snaps,
    orderRows := st.orderRows ++
      [{ id := st.nextOrderID, userID := userID, status := StatusPending,
         paymentMethod := payment, totalAmount := total, createdAt := st.now }],
    orderItemRows := st.orderItemRows ++ stampRows st.nextOrderItemID st.nextOrderID snaps,
    nextOrderID := st.nextOrderID + 1,
    nextOrderItemID := st.nextOrderItemID + snaps.length }

/-- The store after a successful `Checkout`: the commit plus the cart clear. -/
def clearedState (st : ShopState) (userID : Int) (payment : PaymentMethod)
    (total : Rat) (snaps : List OrderItem) : ShopState :=
  { commitState st userID payment total snaps with
    cartRows := st.cartRows.filter (fun r => !(r.userID == userID)) }

/-- Concrete user store for the C1 witness. -/
def c1Store : UserStore :=
  { users := [{ id := 7, name := "Ann", email := "ann@example.com",
                passwordHash := "hashed:old", userRoleID := 3,
                roleCode := RoleCodeCustomer }],
    roles := [(RoleCodeSuperAdmin, 1), (RoleCodeAdmin, 2), (RoleCodeCustomer, 3)],
    nextID := 8 }

/-- Concrete store for the C7 witness: one product, an empty cart. -/
def c7State : ShopState :=
  { products := [{ id := 1, name := "Widget", description := "", price := 10,
                   stock := 3, categoryID := 1, isActive := true }],
    cartRows := [], orderRows := [], orderItemRows := [],
    nextOrderID := 1, nextOrderItemID := 1, now := 0, clearErr := false }

/-- Concrete store for C4: product 1 has stock 5 and the cart of user 100
already holds quantity 3 of it. -/
def c4State : ShopState :=
  { products := [{ id := 1, name := "Limited Product", description := "",
                   price := 99, stock := 5, categoryID := 1, isActive := true }],
    cartRows := [{ userID := 100, productID := 1, quantity := 3 }],
    orderRows := [], orderItemRows := [],
    nextOrderID := 1, nextOrderItemID := 1, now := 0, clearErr := false }

/-- Concrete store for the C2 witness: product 1 has stock 1 but the cart
of user 100 asks for 5 of it. -/
def c2State : ShopState :=
  { products := [{ id := 1, name := "Widget", description := "",
                   price := 10, stock := 1, categoryID := 1, isActive := true }],
    cartRows := [{ userID := 100, productID := 1, quantity := 5 }],
    orderRows := [], orderItemRows := [],
    nextOrderID := 1, nextOrderItemID := 1, now := 0, clearErr := false }

/-- Concrete store for C8: one PAID order with id 1. -/
def c8State : ShopState :=
  { products := [], cartRows := [],
    orderRows := [{ id := 1, userID := 100, status := StatusPaid,
                    paymentMethod := PaymentCOD, totalAmount := 50, createdAt := 0 }],
    orderItemRows := [],
    nextOrderID := 2, nextOrderItemID := 1, now := 0, clearErr := false }

/-- The order the C8 differing-status success path returns. -/
def c8Updated : Order :=
  { id := 1, userID := 100, status := StatusPending,
    paymentMethod := PaymentCOD, totalAmount := 50, items := [], createdAt := 0 }

/-- The store the C8 differing-status success path leaves behind. -/
def c8UpdatedState : ShopState :=
  { c8State with
    orderRows := [{ id := 1, userID := 100, status := StatusPending,
                    paymentMethod := PaymentCOD, totalAmount := 50, createdAt := 0 }] }

/-- Concrete store for the C3 witness: products A (price 10, stock 100) and
B (price 20, stock 5); the cart of user 100 holds A times 2 and B times 1. -/
def c3State : ShopState :=
  { products :=
      [{ id := 1, name := "Product A", description := "", price := 10,
         stock := 100, categoryID := 1, isActive := true },
       { id := 2, name := "Product B", description := "", price := 20,
         stock := 5, categoryID := 1, isActive := true }],
    cartRows := [{ userID := 100, productID := 1, quantity := 2 },
                 { userID := 100, productID := 2, quantity := 1 }],
    orderRows := [], orderItemRows := [],
    nextOrderID := 1, nextOrderItemID := 1, now := 0, clearErr := false }

/-- The total of the C3 witness checkout, in the exact shape the snapshot
loop accumulates it: 10 times 2 plus 20 times 1, that is 40. -/
def c3Total : Rat :=
  10 * ((2 : Int) : Rat) + (20 * ((1 : Int) : Rat) + 0)

/-- The order the C3 witness checkout commits: total 40, two item
snapshots. -/
def c3Order : Order :=
  { id := 1, userID := 100, status := StatusPending,
    paymentMethod := PaymentCOD, totalAmount := c3Total,
    items := [{ id := 1, orderID := 1, productID := 1, name := "Product A",
                price := 10, quantity := 2 },
              { id := 2, orderID := 1, productID := 2, name := "Product B",
                price := 20, quantity := 1 }],
    createdAt := 0 }

/-- The store the C3 witness checkout leaves behind: stock decremented,
order and items persisted, cart cleared. -/
def c3Final : ShopState :=
  { products :=
      [{ id := 1, name := "Product A", description := "", price := 10,
         stock := 98, categoryID := 1, isActive := true },
       { id := 2, name := "Product B", description := "", price := 20,
         stock := 4, categoryID := 1, isActive := true }],
    cartRows := [],
    orderRows := [{ id := 1, userID := 100, status := StatusPending,
                    paymentMethod := PaymentCOD, totalAmount := c3Total, createdAt := 0 }],
    orderItemRows := [{ id := 1, orderID := 1, productID := 1, name := "Product A",
                        price := 10, quantity := 2 },
                      { id := 2, orderID := 1, productID := 2, name := "Product B",
                        price := 20, quantity := 1 }],
    nextOrderID := 2, nextOrderItemID := 3, now := 0, clearErr := false }

/-- Concrete store for the C9 witness: same catalog and cart as C3 but the
cart clear is set to fail. -/
def c9State : ShopState :=
  { products :=
      [{ id := 1, name := "Product A", description := "", price := 10,
         stock := 100, categoryID := 1, isActive := true },
       { id := 2, name := "Product B", description := "", price := 20,
         stock := 5, categoryID := 1, isActive := true }],
    cartRows := [{ userID := 100, productID := 1, quantity := 2 },
                 { userID := 100, productID := 2, quantity := 1 }],
    orderRows := [], orderItemRows := [],
    nextOrderID := 1, nextOrderItemID := 1, now := 0, clearErr := true }

/-- The total of the C9 witness checkout, in the exact shape the snapshot
loop accumulates it. -/
def c9Total : Rat :=
  10 * ((2 : Int) : Rat) + (20 * ((1 : Int) : Rat) + 0)

/-- The pre-stamp item snapshots of the C9 witness checkout. -/
def c9Snaps : List OrderItem :=
  [{ id := 0, orderID := 0, productID := 1, name := "Product A",
     price := 10, quantity := 2 },
   { id := 0, orderID := 0, productID := 2, name := "Product B",
     price := 20, quantity := 1 }]

/-- Concrete store for the C10 witness: product 5 is inactive with stock 4;
user 100's cart asks for 2 of it. -/
def c10State : ShopState :=
  { products := [{ id := 5, name := "Ghost", description := "", price := 7,
                   stock := 4, categoryID := 1, isActive := false }],
    cartRows := [{ userID := 100, productID := 5, quantity := 2 }],
    orderRows := [], orderItemRows := [],
    nextOrderID := 1, nextOrderItemID := 1, now := 0, clearErr := false }

theorem stampRows_length (orderID : Int) (snaps : List OrderItem) :
    ∀ startID, (stampRows startID orderID snaps).length = snaps.length := by
  induction snaps with
  | nil => intro startID; rfl
  | cons s rest ih => intro startID; simp [stampRows, ih]

theorem insertOrderItems_eq (orderID : Int) (snaps : List OrderItem) :
    ∀ st : ShopState,
      insertOrderItems st orderID snaps =
        { st with
          products := decBySnaps st.products snaps,
          orderItemRows := st.orderItemRows ++ stampRows st.nextOrderItemID orderID snaps,
          nextOrderItemID := st.nextOrderItemID + snaps.length } := by
  induction snaps with
  | nil => intro st; simp [insertOrderItems, decBySnaps, stampRows]
  | cons s rest ih =>
    intro st
    rw [insertOrderItems, ih]
    simp only [decBySnaps, stampRows, List.length_cons]
    congr 1 <;> first | omega | simp

theorem find?_append_of_none {α : Type} (p : α → Bool) (l1 l2 : List α)
    (h : ∀ a ∈ l1, p a = false) :
    List.find? p (l1 ++ l2) = List.find? p l2 := by
  induction l1 with
  | nil => simp
  | cons a rest ih =>
    have ha := h a (List.mem_cons_self a rest)
    simp only [List.cons_append, List.find?, ha]
    exact ih (fun b hb => h b (List.mem_cons_of_mem a hb))

theorem filter_append_of_none {α : Type} (p : α → Bool) (l1 l2 : List α)
    (h : ∀ a ∈ l1, p a = false) :
    List.filter p (l1 ++ l2) = List.filter p l2 := by
  induction l1 with
  | nil => simp
  | cons a rest ih =>
    have ha := h a (List.mem_cons_self a rest)
    simp only [List.cons_append, List.filter, ha]
    exact ih (fun b hb => h b (List.mem_cons_of_mem a hb))

theorem stampRows_filter_self (orderID : Int) (snaps : List OrderItem) :
    ∀ startID,
      (stampRows startID orderID snaps).filter (fun it => it.orderID == orderID) =
        stampRows startID orderID snaps := by
  induction snaps with
  | nil => intro startID; rfl
  | cons s rest ih =>
    intro startID
    simp only [stampRows, List.filter]
    have : (({ s with id := startID, orderID := orderID } : OrderItem).orderID == orderID) = true := by
      simp
    rw [this, ih]

theorem stampRows_snapOf (ps : List Product) (orderID : Int) :
    ∀ {items : List Item} {snaps : List OrderItem},
      List.Forall₂ (SnapOf ps) items snaps →
      ∀ startID, List.Forall₂ (SnapOf ps) items (stampRows startID orderID snaps) := by
  intro items snaps h
  induction h with
  | nil => intro startID; exact List.Forall₂.nil
  | cons hrel _ ih =>
    intro startID
    refine List.Forall₂.cons ?_ (ih (startID + 1))
    obtain ⟨p, hfind, hstock, hpid, hname, hprice, hqty⟩ := hrel
    exact ⟨p, hfind, hstock, hpid, hname, hprice, hqty⟩

theorem scanCartItems_ok {ps : List Product} :
    ∀ {items : List Item} {total : Rat} {snaps : List OrderItem},
      scanCartItems ps items = .ok (total, snaps) →
      total = specCartTotal ps items ∧ List.Forall₂ (SnapOf ps) items snaps := by
  intro items
  induction items with
  | nil =>
    intro total snaps h
    simp only [scanCartItems, Except.ok.injEq, Prod.mk.injEq] at h
    exact ⟨h.1.symm.trans (by simp [specCartTotal]), h.2 ▸ List.Forall₂.nil⟩
  | cons i rest ih =>
    intro total snaps h
    cases hf : findProduct ps i.productID with
    | none => simp only [scanCartItems, hf] at h; exact absurd h (by simp)
    | some p =>
      simp only [scanCartItems, hf] at h
      by_cases hs : p.stock < i.quantity
      · rw [if_pos hs] at h; exact absurd h (by simp)
      · rw [if_neg hs] at h
        cases hrec : scanCartItems ps rest with
        | error e => rw [hrec] at h; exact absurd h (by simp)
        | ok pr =>
          obtain ⟨total', snaps'⟩ := pr
          rw [hrec] at h
          simp only [Except.ok.injEq, Prod.mk.injEq] at h
          obtain ⟨htotal, hsnaps⟩ := h
          obtain ⟨ht', hrel⟩ := ih hrec
          constructor
          · rw [← htotal, ht']
            simp [specCartTotal, freshPrice, hf]
          · rw [← hsnaps]
            refine List.Forall₂.cons ?_ hrel
            exact ⟨p, hf, by omega, rfl, rfl, rfl, rfl⟩

theorem scanCartItems_err {ps : List Product} :
    ∀ {items : List Item},
      (∃ i ∈ items,
        findProduct ps i.productID = none ∨
        ∃ p, findProduct ps i.productID = some p ∧ p.stock < i.quantity) →
      scanCartItems ps items = .error .checkoutValidation := by
  intro items
  induction items with
  | nil => intro h; obtain ⟨i, hi, _⟩ := h; cases hi
  | cons j rest ih =>
    intro h
    obtain ⟨i, hi, hbad⟩ := h
    rcases List.mem_cons.mp hi with heq | hmem
    · subst heq
      rcases hbad with hnone | ⟨p, hp, hlt⟩
      · simp [scanCartItems, hnone]
      · simp [scanCartItems, hp, hlt]
    · have hrest := ih ⟨i, hmem, hbad⟩
      cases hf : findProduct ps j.productID with
      | none => simp [scanCartItems, hf]
      | some p =>
        by_cases hs : p.stock < j.quantity
        · simp [scanCartItems, hf, hs]
        · simp [scanCartItems, hf, hs, hrest]

theorem forall₂_pid_qty {ps : List Product} {items : List Item} {snaps : List OrderItem}
    (h : List.Forall₂ (SnapOf ps) items snaps) :
    List.Forall₂ (fun (i : Item) (s : OrderItem) =>
      s.productID = i.productID ∧ s.quantity = i.quantity) items snaps := by
  refine List.Forall₂.imp ?_ h
  intro i s hrel
  obtain ⟨p, _, _, hpid, _, _, hqty⟩ := hrel
  exact ⟨hpid, hqty⟩

theorem decBySnaps_eq_checkoutDecrement {items : List Item} {snaps : List OrderItem}
    (h : List.Forall₂ (fun (i : Item) (s : OrderItem) =>
      s.productID = i.productID ∧ s.quantity = i.quantity) items snaps) :
    ∀ ps : List Product, decBySnaps ps snaps = checkoutDecrement ps items := by
  induction h with
  | nil => intro ps; rfl
  | cons hrel _ ih =>
    intro ps
    rw [decBySnaps, checkoutDecrement, hrel.1, hrel.2, ih]

theorem createFromCart_err {st : ShopState} {items : List Item} {e : OrderErr}
    (userID : Int) (payment : PaymentMethod)
    (hscan : scanCartItems st.products items = .error e) :
    CreateFromCart st userID items payment = (.error e, st) := by
  simp [CreateFromCart, hscan]

theorem stateWF_orderRows {st : ShopState} (hWF : StateWF st = true) :
    ∀ o ∈ st.orderRows, (o.id == st.nextOrderID) = false := by
  intro o ho
  simp only [StateWF, Bool.and_eq_true, List.all_eq_true, decide_eq_true_eq] at hWF
  have := hWF.1 o ho
  simp only [beq_eq_false_iff_ne, ne_eq]
  omega

theorem stateWF_orderItemRows {st : ShopState} (hWF : StateWF st = true) :
    ∀ it ∈ st.orderItemRows, (it.orderID == st.nextOrderID) = false := by
  intro it hit
  simp only [StateWF, Bool.and_eq_true, List.all_eq_true, List.any_eq_true,
    decide_eq_true_eq, beq_iff_eq] at hWF
  obtain ⟨o, ho, hoid⟩ := hWF.2 it hit
  have := hWF.1 o ho
  simp only [beq_eq_false_iff_ne, ne_eq]
  omega

theorem createFromCart_ok {st : ShopState} {items : List Item} {total : Rat}
    {snaps : List OrderItem} (userID : Int) (payment : PaymentMethod)
    (hWF : StateWF st = true)
    (hscan : scanCartItems st.products items = .ok (total, snaps)) :
    CreateFromCart st userID items payment =
      (.ok (checkoutOrder st userID payment total snaps),
       commitState st userID payment total snaps) := by
  have h1 := stateWF_orderRows hWF
  have h2 := stateWF_orderItemRows hWF
  simp only [CreateFromCart, hscan]
  rw [insertOrderItems_eq]
  simp only [GetOrderByID, listOrderItems]
  rw [find?_append_of_none _ _ _ h1]
  simp only [List.find?, beq_self_eq_true]
  rw [filter_append_of_none _ _ _ h2, stampRows_filter_self]
  simp [checkoutOrder, commitState]

theorem checkout_ok {st : ShopState} {userID : Int} {method : PaymentMethod}
    {total : Rat} {snaps : List OrderItem}
    (hWF : StateWF st = true)
    (hv : PaymentMethod.IsValid method = true)
    (hne : ListItems st userID ≠ [])
    (hscan : scanCartItems st.products (ListItems st userID) = .ok (total, snaps))
    (hclear : st.clearErr = false) :
    Checkout st userID method =
      (.ok (checkoutOrder st userID method total snaps),
       clearedState st userID method total snaps,
       [.cartList, .createOrder, .cartClear]) := by
  have hlen : ((ListItems st userID).length == 0) = false := by
    simp only [beq_eq_false_iff_ne, ne_eq, List.length_eq_zero]
    exact hne
  simp only [Checkout, hv, Bool.not_true, if_false, hlen,
    createFromCart_ok userID method hWF hscan]
  have hcc : ClearCart (commitState st userID method total snaps) userID =
      .ok (clearedState st userID method total snaps) := by
    simp [ClearCart, commitState, clearedState, hclear]
  rw [hcc]
  simp

theorem listItems_cleared (st : ShopState) (rows : List CartRow) (userID : Int) :
    ListItems { st with cartRows := rows.filter (fun r => !(r.userID == userID)) }
      userID = [] := by
  simp only [ListItems, List.filter_filter]
  rw [show (fun (r : CartRow) => r.userID == userID && !(r.userID == userID)) =
      fun _ => false from ?_]
  · simp
  · funext r
    cases r.userID == userID <;> simp

/-! ### Claim theorems -/

/-- C6: the pure policy `CanAssignRole(executorRole, targetRole)` returns
true when the target role is ADMIN exactly when the executor role is
SUPER_ADMIN, and returns true unconditionally for every other target role. -/
theorem canAssignRole_policy (e t : RoleCode) :
    (t = RoleCodeAdmin → CanAssignRole e t = (e == RoleCodeSuperAdmin)) ∧
    (t ≠ RoleCodeAdmin → CanAssignRole e t = true) := by
  constructor
  · intro ht; subst ht; simp [CanAssignRole]
  · intro ht; simp [CanAssignRole, beq_eq_false_iff_ne, ht]

/-- Witness for C6 at concrete roles: an ADMIN executor targeting ADMIN is
decided by the SUPER_ADMIN comparison; a CUSTOMER executor may assign
SUPER_ADMIN. -/
theorem canAssignRole_policy_witness :
    CanAssignRole RoleCodeAdmin RoleCodeAdmin = (RoleCodeAdmin == RoleCodeSuperAdmin) ∧
    CanAssignRole RoleCodeCustomer RoleCodeSuperAdmin = true :=
  ⟨(canAssignRole_policy RoleCodeAdmin RoleCodeAdmin).1 rfl,
   (canAssignRole_policy RoleCodeCustomer RoleCodeSuperAdmin).2 (by decide)⟩

/-- C1: with an ADMIN executor, `CreateUser` targeting ADMIN (any name and
email, non-empty password) and `UpdateUser` of any existing user with a
supplied ADMIN target role both return `CannotAssignRole`; the effect trace
is empty (no role lookup, no password hash, no repository create/update) and
the user store is returned unchanged. -/
theorem admin_cannot_assign_admin (st : UserStore) (name email password : String)
    (id : Int) (u : User) (uname uemail upw : Option String)
    (hpw : password ≠ "")
    (hget : GetUserByID st id = .ok u) :
    CreateUser st ⟨RoleCodeAdmin, name, email, password, RoleCodeAdmin⟩ =
      (.error .cannotAssignRole, st, []) ∧
    UpdateUser st ⟨RoleCodeAdmin, id, uname, uemail, upw, some RoleCodeAdmin⟩ =
      (.error .cannotAssignRole, st, []) := by
  have hpw' : (password == "") = false := by simp [hpw]
  have hvalid : RoleCode.IsValid RoleCodeAdmin = true := by decide
  constructor
  · simp [CreateUser, hpw', hvalid]
  · simp [UpdateUser, hget, hvalid]

/-- Witness for C1 at a concrete store, ADMIN executor, ADMIN target. -/
theorem admin_cannot_assign_admin_witness :
    CreateUser c1Store ⟨RoleCodeAdmin, "Bob", "bob@example.com", "secret", RoleCodeAdmin⟩ =
      (.error .cannotAssignRole, c1Store, []) ∧
    UpdateUser c1Store ⟨RoleCodeAdmin, 7, none, none, none, some RoleCodeAdmin⟩ =
      (.error .cannotAssignRole, c1Store, []) :=
  admin_cannot_assign_admin c1Store "Bob" "bob@example.com" "secret" 7
    { id := 7, name := "Ann", email := "ann@example.com",
      passwordHash := "hashed:old", userRoleID := 3, roleCode := RoleCodeCustomer }
    none none none (by decide) rfl

/-- C7: `Checkout` with a payment method that is neither COD nor TAMARA
fails with `InvalidPayment`, with an empty effect trace (the cart is neither
read nor modified) and the store unchanged; with a valid method and an empty
cart it fails with `EmptyOrderItems` after only the cart read, with the
store unchanged (no order created). -/
theorem checkout_guards (st : ShopState) (userID : Int) (method : PaymentMethod) :
    (method ≠ PaymentCOD → method ≠ PaymentTamara →
      Checkout st userID method = (.error .invalidPayment, st, [])) ∧
    (PaymentMethod.IsValid method = true → ListItems st userID = [] →
      Checkout st userID method = (.error .emptyOrderItems, st, [.cartList])) := by
  constructor
  · intro h1 h2
    have hv : PaymentMethod.IsValid method = false := by
      simp [PaymentMethod.IsValid, beq_eq_false_iff_ne, h1, h2]
    simp [Checkout, hv]
  · intro hv hemp
    simp [Checkout, hv, hemp]

/-- Witness for C7: the method "BITCOIN" is rejected outright; COD on the
empty cart fails with `EmptyOrderItems`. -/
theorem checkout_guards_witness :
    Checkout c7State 100 "BITCOIN" = (.error .invalidPayment, c7State, []) ∧
    Checkout c7State 100 PaymentCOD = (.error .emptyOrderItems, c7State, [.cartList]) :=
  ⟨(checkout_guards c7State 100 "BITCOIN").1 (by decide) (by decide),
   (checkout_guards c7State 100 PaymentCOD).2 (by decide) (by decide)⟩

/-- C4 (documents the code-bug divergence): with quantity 3 of product 1
already in the cart and stock 5, adding 3 more — so the new total 6 exceeds
stock — succeeds and writes quantity 6, because the shipped `AddToCart`
performs no product lookup or stock check at all; the repository's own unit
test requires `OutOfStock` here with the cart left at quantity 3. -/
theorem addToCart_oversells :
    (∃ p, findProduct c4State.products 1 = some p ∧ p.stock < 3 + 3) ∧
    AddToCart c4State 100 1 3 =
      (.ok (), { c4State with
        cartRows := [{ userID := 100, productID := 1, quantity := 6 }] }) := by
  have hp : findProduct c4State.products 1 = some
      { id := 1, name := "Limited Product", description := "",
        price := 99, stock := 5, categoryID := 1, isActive := true } := by decide
  exact ⟨⟨_, hp, by decide⟩, rfl⟩

/-- C2: during checkout with a valid payment method, if any cart line's
product cannot be found or its live stock is below the requested quantity,
the whole operation fails with `CheckoutValidation` and the store — stock,
orders and cart alike — is returned unchanged: no partial order and no
stock decrement. -/
theorem checkout_validation_atomic (st : ShopState) (userID : Int)
    (method : PaymentMethod)
    (hv : PaymentMethod.IsValid method = true)
    (hbad : ∃ i ∈ ListItems st userID,
      findProduct st.products i.productID = none ∨
      ∃ p, findProduct st.products i.productID = some p ∧ p.stock < i.quantity) :
    Checkout st userID method =
      (.error .checkoutValidation, st, [.cartList, .createOrder]) := by
  have hscan := scanCartItems_err hbad
  obtain ⟨i, hi, -⟩ := hbad
  have hne : ((ListItems st userID).length == 0) = false := by
    simp only [beq_eq_false_iff_ne, ne_eq, List.length_eq_zero]
    intro h0
    rw [h0] at hi
    cases hi
  simp only [Checkout, hv, Bool.not_true, if_false, hne,
    createFromCart_err userID method hscan]
  simp

/-- Witness for C2 at the concrete short-stocked store. -/
theorem checkout_validation_atomic_witness :
    Checkout c2State 100 PaymentCOD =
      (.error .checkoutValidation, c2State, [.cartList, .createOrder]) := by
  have hp : findProduct c2State.products 1 = some
      { id := 1, name := "Widget", description := "",
        price := 10, stock := 1, categoryID := 1, isActive := true } := by decide
  exact checkout_validation_atomic c2State 100 PaymentCOD (by decide)
    ⟨{ productID := 1, quantity := 5 }, by decide, Or.inr ⟨_, hp, by decide⟩⟩

/-- C8 (documents the code-bug divergence): order 1 exists with status
PAID, yet writing the valid status PAID to it again returns `OrderNotFound`
with the store unchanged — the UPDATE changes zero rows, and the driver
reports changed rows — although the claim (and the order service's own test
case "Same status (PENDING to PENDING)") requires every valid status to be
writable over every current one.  A differing valid status does succeed with
no transition-order check, and an invalid status or an unknown id fails
exactly as the claim states. -/
theorem updateStatus_same_status_not_found :
    (∃ row ∈ c8State.orderRows, row.id = 1 ∧ row.status = StatusPaid) ∧
    Status.IsValid StatusPaid = true ∧
    UpdateStatus c8State 1 StatusPaid = (.error .orderNotFound, c8State) ∧
    UpdateStatus c8State 1 "REFUNDED" = (.error .invalidStatus, c8State) ∧
    UpdateStatus c8State 2 StatusPending = (.error .orderNotFound, c8State) ∧
    ∃ o st2, UpdateStatus c8State 1 StatusPending = (.ok o, st2) ∧
      o.status = StatusPending := by
  refine ⟨by decide, by decide, by decide, by decide, by decide, ?_⟩
  exact ⟨c8Updated, c8UpdatedState, by decide, rfl⟩

theorem checkout_clearfail {st : ShopState} {userID : Int} {method : PaymentMethod}
    {total : Rat} {snaps : List OrderItem}
    (hWF : StateWF st = true)
    (hv : PaymentMethod.IsValid method = true)
    (hne : ListItems st userID ≠ [])
    (hscan : scanCartItems st.products (ListItems st userID) = .ok (total, snaps))
    (hclear : st.clearErr = true) :
    Checkout st userID method =
      (.error .storage, commitState st userID method total snaps,
       [.cartList, .createOrder, .cartClear]) := by
  have hlen : ((ListItems st userID).length == 0) = false := by
    simp only [beq_eq_false_iff_ne, ne_eq, List.length_eq_zero]
    exact hne
  simp only [Checkout, hv, Bool.not_true, if_false, hlen,
    createFromCart_ok userID method hWF hscan]
  have hcc : ClearCart (commitState st userID method total snaps) userID =
      .error .storage := by
    simp [ClearCart, commitState, hclear]
  rw [hcc]
  simp

theorem getOrder_commitState {st : ShopState} (hWF : StateWF st = true)
    (userID : Int) (payment : PaymentMethod) (total : Rat)
    (snaps : List OrderItem) :
    GetOrderByID (commitState st userID payment total snaps) st.nextOrderID =
      .ok (checkoutOrder st userID payment total snaps) := by
  have h1 := stateWF_orderRows hWF
  have h2 := stateWF_orderItemRows hWF
  simp only [GetOrderByID, commitState, listOrderItems]
  rw [find?_append_of_none _ _ _ h1]
  simp only [List.find?, beq_self_eq_true]
  rw [filter_append_of_none _ _ _ h2, stampRows_filter_self]
  simp [checkoutOrder]

/-- C3: when `Checkout` succeeds, the returned order has status PENDING, its
total equals the sum over all cart lines of the freshly-read unit price
times quantity, its items are in one-to-one correspondence with the cart
lines — each a point-in-time copy of the product name and unit price — and
the user's cart is empty in the resulting store. -/
theorem checkout_success_shape (st : ShopState) (userID : Int)
    (method : PaymentMethod) (order : Order) (stF : ShopState)
    (eff : List CheckoutEffect)
    (hWF : StateWF st = true)
    (h : Checkout st userID method = (.ok order, stF, eff)) :
    order.status = StatusPending ∧
    order.totalAmount = specCartTotal st.products (ListItems st userID) ∧
    List.Forall₂ (SnapOf st.products) (ListItems st userID) order.items ∧
    ListItems stF userID = [] := by
  cases hv : PaymentMethod.IsValid method with
  | false => simp [Checkout, hv] at h
  | true =>
    cases hlen : ((ListItems st userID).length == 0) with
    | true => simp [Checkout, hv, hlen] at h
    | false =>
      have hne : ListItems st userID ≠ [] := by
        intro h0
        rw [h0] at hlen
        simp at hlen
      cases hscan : scanCartItems st.products (ListItems st userID) with
      | error e =>
        simp only [Checkout, hv, Bool.not_true, if_false, hlen,
          createFromCart_err userID method hscan] at h
        simp at h
      | ok pr =>
        obtain ⟨total, snaps⟩ := pr
        cases hclear : st.clearErr with
        | true =>
          rw [checkout_clearfail hWF hv hne hscan hclear] at h
          simp at h
        | false =>
          rw [checkout_ok hWF hv hne hscan hclear] at h
          simp only [Prod.mk.injEq, Except.ok.injEq] at h
          obtain ⟨horder, hstF, -⟩ := h
          subst horder
          subst hstF
          refine ⟨rfl, ?_, ?_, ?_⟩
          · exact (scanCartItems_ok hscan).1
          · exact stampRows_snapOf st.products st.nextOrderID
              (scanCartItems_ok hscan).2 st.nextOrderItemID
          · show ListItems (clearedState st userID method total snaps) userID = []
            simp only [clearedState]
            exact listItems_cleared _ _ _

/-- Witness for C3 at the two-line concrete cart. -/
theorem checkout_success_shape_witness :
    c3Order.status = StatusPending ∧
    c3Order.totalAmount = specCartTotal c3State.products (ListItems c3State 100) ∧
    List.Forall₂ (SnapOf c3State.products) (ListItems c3State 100) c3Order.items ∧
    ListItems c3Final 100 = [] :=
  checkout_success_shape c3State 100 PaymentCOD c3Order c3Final
    [.cartList, .createOrder, .cartClear] (by decide) rfl

/-- C9: when the transactional order creation of `Checkout` succeeds but the
subsequent cart clear fails, `Checkout` reports the failure to the caller,
yet in the returned store the new order exists (readable by id) and every
product's stock has already been decremented by the purchased quantities. -/
theorem checkout_clear_failure_reports_error (st : ShopState) (userID : Int)
    (method : PaymentMethod) (total : Rat) (snaps : List OrderItem)
    (hWF : StateWF st = true)
    (hv : PaymentMethod.IsValid method = true)
    (hne : ListItems st userID ≠ [])
    (hscan : scanCartItems st.products (ListItems st userID) = .ok (total, snaps))
    (hclear : st.clearErr = true) :
    ∃ stF, Checkout st userID method =
        (.error .storage, stF, [.cartList, .createOrder, .cartClear]) ∧
      GetOrderByID stF st.nextOrderID =
        .ok (checkoutOrder st userID method total snaps) ∧
      stF.products = checkoutDecrement st.products (ListItems st userID) := by
  refine ⟨commitState st userID method total snaps,
    checkout_clearfail hWF hv hne hscan hclear,
    getOrder_commitState hWF userID method total snaps, ?_⟩
  show decBySnaps st.products snaps = checkoutDecrement st.products (ListItems st userID)
  exact decBySnaps_eq_checkoutDecrement
    (forall₂_pid_qty (scanCartItems_ok hscan).2) st.products

/-- Witness for C9: the checkout on the failing-clear store. -/
theorem checkout_clear_failure_witness :
    ∃ stF, Checkout c9State 100 PaymentCOD =
        (.error .storage, stF, [.cartList, .createOrder, .cartClear]) ∧
      GetOrderByID stF c9State.nextOrderID =
        .ok (checkoutOrder c9State 100 PaymentCOD c9Total c9Snaps) ∧
      stF.products = checkoutDecrement c9State.products (ListItems c9State 100) :=
  checkout_clear_failure_reports_error c9State 100 PaymentCOD c9Total c9Snaps
    (by decide) (by decide) (by decide) rfl rfl

/-- C10: a cart line whose product exists with enough stock passes checkout
validation even when the product is inactive — the checkout re-read fetches
only name, price and stock — so a successful `Checkout` creates an order
containing the deactivated product's snapshot. -/
theorem checkout_allows_inactive_product (st : ShopState) (userID : Int)
    (p : Product) (i : Item)
    (hWF : StateWF st = true)
    (hcart : ListItems st userID = [i])
    (hfind : findProduct st.products i.productID = some p)
    (hstock : i.quantity ≤ p.stock)
    (_hactive : p.isActive = false)
    (hclear : st.clearErr = false) :
    ∃ order stF,
      Checkout st userID PaymentCOD =
        (.ok order, stF, [.cartList, .createOrder, .cartClear]) ∧
      ∃ item ∈ order.items, item.productID = i.productID ∧ item.name = p.name ∧
        item.price = p.price ∧ item.quantity = i.quantity := by
  have hnlt : ¬(p.stock < i.quantity) := not_lt.mpr hstock
  have hscan : scanCartItems st.products (ListItems st userID) =
      .ok (p.price * (i.quantity : Rat) + 0,
           [{ id := 0, orderID := 0, productID := i.productID, name := p.name,
              price := p.price, quantity := i.quantity }]) := by
    rw [hcart]
    simp [scanCartItems, hfind, hnlt]
  have hne : ListItems st userID ≠ [] := by
    rw [hcart]
    simp
  have hv : PaymentMethod.IsValid PaymentCOD = true := by decide
  have heq := checkout_ok hWF hv hne hscan hclear
  refine ⟨_, _, heq, ?_⟩
  refine ⟨{ id := st.nextOrderItemID, orderID := st.nextOrderID,
            productID := i.productID, name := p.name, price := p.price,
            quantity := i.quantity }, ?_, rfl, rfl, rfl, rfl⟩
  show _ ∈ (checkoutOrder st userID PaymentCOD (p.price * (i.quantity : Rat) + 0)
    [{ id := 0, orderID := 0, productID := i.productID, name := p.name,
       price := p.price, quantity := i.quantity }]).items
  simp [checkoutOrder, stampRows]

/-- Witness for C10: checking out the inactive product succeeds and the
order carries its snapshot. -/
theorem checkout_allows_inactive_product_witness :
    ∃ order stF,
      Checkout c10State 100 PaymentCOD =
        (.ok order, stF, [.cartList, .createOrder, .cartClear]) ∧
      ∃ item ∈ order.items, item.productID = (5 : Int) ∧ item.name = "Ghost" ∧
        item.price = (7 : Rat) ∧ item.quantity = (2 : Int) :=
  checkout_allows_inactive_product c10State 100
    { id := 5, name := "Ghost", description := "", price := 7,
      stock := 4, categoryID := 1, isActive := false }
    { productID := 5, quantity := 2 }
    (by decide) rfl rfl (by decide) rfl rfl

end Shop
